import Mathlib

/-!
# Convoy: repositories, subscription handlers and the delivery core

A shallow embedding of

* `datastore/mongo/user.go` and `datastore/mongo/organisation_invite.go`
  (thin repositories over `datastore.Store`),
* `server/subscription.go` (HTTP handlers over the subscription service),
* the delivery operations exercised by `server/event_integration_test.go`.

Go's `error` interface is `Option GoError` (`none` is `nil`).  Clocks and id
generators are explicit arguments.  The store is an interface: a record of
functions over an explicit store state.
-/

namespace Convoy

/-! ## Go errors -/

/-- Error values: the sentinels the repositories compare against, driver server
errors carrying `(code, message)` pairs, any other leaf error, and wrapping
(`fmt.Errorf` with `%w`). -/
inductive GoError where
  | ErrNoDocuments
  | ErrUserNotFound
  | ErrOrgInviteNotFound
  | ErrDuplicateEmail
  | serverError (writeErrors : List (Nat × String))
  | plain (msg : String)
  | wrapped (msg : String) (inner : GoError)
  deriving DecidableEq, Repr

namespace GoError

/-- One step of `errors.Unwrap`. -/
def Unwrap : GoError → Option GoError
  | wrapped _ inner => some inner
  | _ => none

/-- The loop of `errors.Is` for a non-nil error and a non-nil target: compare,
then unwrap, until the chain ends. -/
def isChain (target : GoError) : GoError → Bool
  | wrapped msg inner => decide (wrapped msg inner = target) || isChain target inner
  | e => decide (e = target)

end GoError

/-- Go `errors.Is(err, target)`. -/
def errorsIs : Option GoError → Option GoError → Bool
  | none, target => target.isNone
  | some _, none => false
  | some e, some target => GoError.isChain target e

/-- Go `strings.Contains` on character lists. -/
def containsChars (sub : List Char) : List Char → Bool
  | [] => sub.isEmpty
  | c :: cs => sub.isPrefixOf (c :: cs) || containsChars sub cs

/-- Driver `ServerError.HasErrorCode`. -/
def HasErrorCode (writeErrors : List (Nat × String)) (code : Nat) : Bool :=
  writeErrors.any (fun we => we.1 == code)

/-- Driver `ServerError.HasErrorCodeWithMessage`. -/
def HasErrorCodeWithMessage (writeErrors : List (Nat × String)) (code : Nat) (message : String) : Bool :=
  writeErrors.any (fun we => we.1 == code && containsChars message.toList we.2.toList)

/-- The loop of the driver's `mongo.IsDuplicateKeyError` on a non-nil error: the
first server error met along the unwrap chain decides. -/
def isDuplicateKeyChain : GoError → Bool
  | .serverError ws =>
      HasErrorCode ws 11000 || HasErrorCode ws 11001 || HasErrorCode ws 12582 ||
        HasErrorCodeWithMessage ws 16460 " E11000 "
  | .wrapped _ inner => isDuplicateKeyChain inner
  | _ => false

/-- Driver `mongo.IsDuplicateKeyError(err)`. -/
def IsDuplicateKeyError : Option GoError → Bool
  | none => false
  | some e => isDuplicateKeyChain e

/-! ## BSON documents -/

/-- BSON field values used by the repositories. -/
inductive BsonValue where
  | str (s : String)
  | dateTime (ms : Int)
  | null
  deriving DecidableEq, Repr

/-- A `bson.M` map, as an association list. -/
abbrev BsonM := List (String × BsonValue)

/-- A `bson.D` ordered document. -/
abbrev BsonD := List (String × BsonValue)

/-- Modelled from the spec: the datastore package's document-status values are
declared elsewhere in the repository; the spec speaks of "a document-status flag
shared with all entities", with an active and a deleted value. -/
def ActiveDocumentStatus : String := "Active"

/-- Modelled from the spec: the deleted value of the document-status flag (see
`ActiveDocumentStatus`). -/
def DeletedDocumentStatus : String := "Deleted"

/-! ## The store interface -/

/-- The `datastore.Store` methods the repositories call.  `σ` is the store's
state and `ε` the entity type; a find yields what it decoded into the
destination (`none`: destination untouched) and the error. -/
structure Store (σ ε : Type) where
  Save : σ → ε → σ × Option GoError
  FindOne : σ → BsonM → Option ε × Option GoError
  FindByID : σ → String → Option ε × Option GoError
  UpdateOne : σ → BsonM → BsonM → σ × Option GoError
  UpdateByID : σ → String → BsonD → σ × Option GoError

/-! ## `datastore/mongo/user.go` -/

/-- The fields of `datastore.User` that the repository reads or writes. -/
structure User where
  ID : Nat := 0
  UID : String := ""
  FirstName : String := ""
  LastName : String := ""
  Email : String := ""
  Password : String := ""
  ResetPasswordToken : String := ""
  ResetPasswordExpiresAt : Int := 0
  deriving DecidableEq, Repr, Inhabited

namespace userRepo

variable {σ : Type}

/-- `userRepo.CreateUser`; `newObjectID` and `newUUID` are the values drawn from
`primitive.NewObjectID()` and `uuid.NewString()`.  Returns the store state, the
user as mutated through the pointer, and the error. -/
def CreateUser (store : Store σ User) (s : σ) (newObjectID : Nat) (newUUID : String)
    (user : User) : σ × User × Option GoError :=
  let user := { user with ID := newObjectID }
  let user := { user with ResetPasswordToken := newUUID }
  let (s, err) := store.Save s user
  if IsDuplicateKeyError err then
    (s, user, some GoError.ErrDuplicateEmail)
  else
    (s, user, err)

/-- `userRepo.FindUserByEmail`. -/
def FindUserByEmail (store : Store σ User) (s : σ) (email : String) : User × Option GoError :=
  let user : User := {}
  let filter : BsonM := [("email", .str email)]
  let (decoded, err) := store.FindOne s filter
  let user := decoded.getD user
  if errorsIs err (some GoError.ErrNoDocuments) then
    (user, some GoError.ErrUserNotFound)
  else
    (user, none)

/-- `userRepo.FindUserByID`. -/
def FindUserByID (store : Store σ User) (s : σ) (id : String) : User × Option GoError :=
  let user : User := {}
  let (decoded, err) := store.FindByID s id
  let user := decoded.getD user
  if errorsIs err (some GoError.ErrNoDocuments) then
    (user, some GoError.ErrUserNotFound)
  else
    (user, none)

/-- The `update` document that `userRepo.UpdateUser` builds; `now` is
`time.Now()` in milliseconds. -/
def updateUserDocument (now : Int) (user : User) : BsonD := [
  ("first_name", .str user.FirstName),
  ("last_name", .str user.LastName),
  ("email", .str user.Email),
  ("password", .str user.Password),
  ("updated_at", .dateTime now),
  ("reset_password_token", .str user.ResetPasswordToken),
  ("reset_password_expires_at", .dateTime user.ResetPasswordExpiresAt)]

/-- `userRepo.UpdateUser`. -/
def UpdateUser (store : Store σ User) (s : σ) (now : Int) (user : User) : σ × Option GoError :=
  let update : BsonD := updateUserDocument now user
  let (s, err) := store.UpdateByID s user.UID update
  if IsDuplicateKeyError err then
    (s, some GoError.ErrDuplicateEmail)
  else
    (s, err)

/-- `userRepo.FindUserByToken`. -/
def FindUserByToken (store : Store σ User) (s : σ) (token : String) : User × Option GoError :=
  let user : User := {}
  let filter : BsonM := [("reset_password_token", .str token)]
  let (decoded, err) := store.FindOne s filter
  let user := decoded.getD user
  if errorsIs err (some GoError.ErrNoDocuments) then
    (user, some GoError.ErrUserNotFound)
  else
    (user, none)

end userRepo

/-! ## `datastore/mongo/organisation_invite.go` -/

namespace orgInviteRepo

variable {σ ε : Type}

/-- `orgInviteRepo.DeleteOrganisationInvite`; `now` is `time.Now()`. -/
def DeleteOrganisationInvite (store : Store σ ε) (s : σ) (now : Int) (uid : String) :
    σ × Option GoError :=
  let update : BsonM := [
    ("deleted_at", .dateTime now),
    ("document_status", .str DeletedDocumentStatus)]
  let (s, err) := store.UpdateOne s [("uid", .str uid)] update
  match err with
  | some e => (s, some e)
  | none => (s, none)

/-- `orgInviteRepo.FetchOrganisationInviteByID`. -/
def FetchOrganisationInviteByID [Inhabited ε] (store : Store σ ε) (s : σ) (id : String) :
    ε × Option GoError :=
  let org : ε := default
  let (decoded, err) := store.FindByID s id
  let org := decoded.getD org
  let err := if errorsIs err (some GoError.ErrNoDocuments) then some GoError.ErrOrgInviteNotFound else err
  (org, err)

/-- `orgInviteRepo.FetchOrganisationInviteByToken`. -/
def FetchOrganisationInviteByToken [Inhabited ε] (store : Store σ ε) (s : σ) (token : String) :
    ε × Option GoError :=
  let org : ε := default
  let filter : BsonM := [
    ("token", .str token),
    ("document_status", .str ActiveDocumentStatus)]
  let (decoded, err) := store.FindOne s filter
  let org := decoded.getD org
  let err := if errorsIs err (some GoError.ErrNoDocuments) then some GoError.ErrOrgInviteNotFound else err
  (org, err)

end orgInviteRepo

/-! ## Stores to run the repositories on -/

/-- A store whose every call fails with `e` and leaves the state alone. -/
def failingStore (ε : Type) (e : GoError) : Store Unit ε where
  Save _ _ := ((), some e)
  FindOne _ _ := (none, some e)
  FindByID _ _ := (none, some e)
  UpdateOne _ _ _ := ((), some e)
  UpdateByID _ _ _ := ((), some e)

/-- The write calls a repository can issue against the store. -/
inductive WriteCall (ε : Type) where
  | Save (entity : ε)
  | UpdateOne (filter : BsonM) (update : BsonM)
  | UpdateByID (id : String) (update : BsonD)
  deriving Repr

/-- A store wrapped so that every write call is appended to a log carried next
to the state of the inner store. -/
def recording {σ ε : Type} (inner : Store σ ε) : Store (σ × List (WriteCall ε)) ε where
  Save s entity := ((( inner.Save s.1 entity).1, s.2 ++ [WriteCall.Save entity]), (inner.Save s.1 entity).2)
  FindOne s filter := inner.FindOne s.1 filter
  FindByID s id := inner.FindByID s.1 id
  UpdateOne s filter update :=
    (((inner.UpdateOne s.1 filter update).1, s.2 ++ [WriteCall.UpdateOne filter update]),
      (inner.UpdateOne s.1 filter update).2)
  UpdateByID s id update :=
    (((inner.UpdateByID s.1 id update).1, s.2 ++ [WriteCall.UpdateByID id update]),
      (inner.UpdateByID s.1 id update).2)

namespace MemStore

/-- Field lookup in a document. -/
def lookup (k : String) : BsonM → Option BsonValue
  | [] => none
  | kv :: rest => if kv.1 = k then some kv.2 else lookup k rest

/-- Set one field of a document: overwrite it where present, add it otherwise. -/
def setField (k : String) (v : BsonValue) : BsonM → BsonM
  | [] => [(k, v)]
  | kv :: rest => if kv.1 = k then (k, v) :: rest else kv :: setField k v rest

/-- Apply an update patch: each of its fields is set in turn. -/
def applyPatch (patch : BsonM) (doc : BsonM) : BsonM :=
  patch.foldl (fun d kv => setField kv.1 kv.2 d) doc

/-- An equality filter accepts a document when every field it names is present
with the value it asks for. -/
def matchesFilter (filter : BsonM) (doc : BsonM) : Bool :=
  filter.all (fun kv => decide (lookup kv.1 doc = some kv.2))

/-- Patch the first document the filter accepts; `none` when it accepts none. -/
def updateFirst (filter patch : BsonM) : List BsonM → Option (List BsonM)
  | [] => none
  | d :: ds =>
      if matchesFilter filter d then some (applyPatch patch d :: ds)
      else (updateFirst filter patch ds).map (fun ds => d :: ds)

/-- The outcome of a find: the first accepted document, or the no-documents
condition. -/
def findResult (found : Option BsonM) : Option BsonM × Option GoError :=
  match found with
  | some d => (some d, none)
  | none => (none, some GoError.ErrNoDocuments)

/-- The outcome of an update: the patched collection, or the collection as it
was together with the no-documents condition. -/
def updateResult (docs : List BsonM) (updated : Option (List BsonM)) :
    List BsonM × Option GoError :=
  match updated with
  | some docs => (docs, none)
  | none => (docs, some GoError.ErrNoDocuments)

/-- Modelled from the spec: the store behind `datastore.Store` is
implemented elsewhere in the repository.  The spec gives its contract as `Save(entity)`,
`FindByID(id) -> entity | NotFound`, `FindOne(filter) -> entity | NotFound`,
`UpdateOne(filter, patch) -> ok | NotFound` and
`UpdateByID(id, patch) -> ok | NotFound`; this is a collection of documents that
evaluates equality filters and applies patches field by field, with the record
id held in the `uid` field. -/
def store : Store (List BsonM) BsonM where
  Save docs doc := (docs ++ [doc], none)
  FindOne docs filter := findResult (docs.find? (matchesFilter filter))
  FindByID docs id := findResult (docs.find? (matchesFilter [("uid", .str id)]))
  UpdateOne docs filter update := updateResult docs (updateFirst filter update docs)
  UpdateByID docs id update := updateResult docs (updateFirst [("uid", .str id)] update docs)

end MemStore

/-! ## `server/subscription.go` -/

namespace server

/-- `http.StatusOK`. -/
def StatusOK : Nat := 200
/-- `http.StatusCreated`. -/
def StatusCreated : Nat := 201
/-- `http.StatusAccepted`. -/
def StatusAccepted : Nat := 202
/-- `http.StatusBadRequest`. -/
def StatusBadRequest : Nat := 400

/-- The fields of `datastore.Group` the handlers read. -/
structure Group where
  UID : String := ""
  Type_ : String := ""
  deriving DecidableEq, Repr, Inhabited

/-- The request model `models.Subscription`; a declared variable of this type
starts as the zero value. -/
structure SubscriptionModel where
  Name : String := ""
  Type_ : String := ""
  AppID : String := ""
  SourceID : String := ""
  EndpointID : String := ""
  deriving DecidableEq, Repr, Inhabited

/-- The request model `models.UpdateSubscription`. -/
structure UpdateSubscriptionModel where
  Name : String := ""
  AppID : String := ""
  SourceID : String := ""
  EndpointID : String := ""
  deriving DecidableEq, Repr, Inhabited

/-- The entity `datastore.Subscription` that the service hands back. -/
structure Subscription where
  UID : String := ""
  GroupID : String := ""
  Name : String := ""
  Type_ : String := ""
  Status : String := ""
  deriving DecidableEq, Repr, Inhabited

/-- An HTTP request as the handlers see it: the group the middleware put in the
context, the URL parameters and the raw body. -/
structure Request where
  group : Group := {}
  urlParams : List (String × String) := []
  body : String := ""
  deriving DecidableEq, Repr, Inhabited

/-- `chi.URLParam(r, key)`: the empty string when the parameter is absent. -/
def URLParam (r : Request) (key : String) : String :=
  match r.urlParams.find? (fun kv => kv.1 == key) with
  | some kv => kv.2
  | none => ""

/-- Calls a handler makes on the subscription service, with their arguments. -/
inductive ServiceCall where
  | CreateSubscription (group : Group) (sub : SubscriptionModel)
  | UpdateSubscription (groupID subscriptionID : String) (update : UpdateSubscriptionModel)
  | ToggleSubscriptionStatus (groupID subscriptionID : String)
  | FindSubscriptionByID (group : Group) (id : String) (skipCache : Bool)
  | DeleteSubscription (groupID : String) (sub : Subscription)
  deriving DecidableEq, Repr

/-- Modelled from the spec: the response constructors `util.NewServerResponse`,
`util.NewErrorResponse` and `util.NewServiceErrResponse` are implemented elsewhere in the repository.  A response is kept as the constructor call that built it; the spec's HTTP
operations answer with the status code the handler names, so a server or error
response is rendered with the status code it was built with. -/
inductive Response where
  | NewServerResponse (message : String) (data : Option Subscription) (statusCode : Nat)
  | NewErrorResponse (message : String) (statusCode : Nat)
  | NewServiceErrResponse (err : GoError)
  deriving DecidableEq, Repr

/-- The HTTP status code a response is rendered with; `serviceErrCode` is the
code `util.NewServiceErrResponse` derives from a service error. -/
def Response.StatusCode (serviceErrCode : GoError → Nat) : Response → Nat
  | .NewServerResponse _ _ statusCode => statusCode
  | .NewErrorResponse _ statusCode => statusCode
  | .NewServiceErrResponse err => serviceErrCode err

/-- What a handler does, in order: service calls and `render.Render` calls. -/
inductive Event where
  | call (c : ServiceCall)
  | render (resp : Response)
  deriving DecidableEq, Repr

/-- The responses a handler run rendered, in order. -/
def rendered : List Event → List Response
  | [] => []
  | .render resp :: rest => resp :: rendered rest
  | .call _ :: rest => rendered rest

/-- The service calls a handler run made, in order. -/
def serviceCalls : List Event → List ServiceCall
  | [] => []
  | .call c :: rest => c :: serviceCalls rest
  | .render _ :: rest => serviceCalls rest

/-- The subscription service behind `s.subService`. -/
structure SubscriptionService where
  CreateSubscription : Group → SubscriptionModel → Except GoError Subscription
  UpdateSubscription : String → String → UpdateSubscriptionModel → Except GoError Subscription
  ToggleSubscriptionStatus : String → String → Except GoError Subscription
  FindSubscriptionByID : Group → String → Bool → Except GoError Subscription
  DeleteSubscription : String → Subscription → Option GoError

/-- The server: its subscription service, and `util.ReadJSON` for the two
destinations the handlers pass (the receiver `&s` in `CreateSubscription`, and
`&update` in `UpdateSubscription`), each with the message of the error it can
return. -/
structure Server where
  subService : SubscriptionService
  ReadJSONServer : Request → Option GoError
  ReadJSONUpdate : Request → Except GoError UpdateSubscriptionModel
  errorMessage : GoError → String

/-- `Server.CreateSubscription`.  The decode destination of `util.ReadJSON` is
`&s`, the receiver; `sub` stays the zero value until its `Type` (here `Type_`) is set. -/
def CreateSubscription (s : Server) (r : Request) : List Event :=
  let group := r.group
  let sub : SubscriptionModel := {}
  match s.ReadJSONServer r with
  | some err => [.render (.NewErrorResponse (s.errorMessage err) StatusBadRequest)]
  | none =>
    let sub := { sub with Type_ := group.Type_ }
    match s.subService.CreateSubscription group sub with
    | .error err =>
      [.call (.CreateSubscription group sub), .render (.NewServiceErrResponse err)]
    | .ok subscription =>
      [.call (.CreateSubscription group sub),
       .render (.NewServerResponse "Subscriptions created successfully" (some subscription)
         StatusCreated)]

/-- `Server.DeleteSubscription`. -/
def DeleteSubscription (s : Server) (r : Request) : List Event :=
  let group := r.group
  let id := URLParam r "subscriptionID"
  match s.subService.FindSubscriptionByID group id true with
  | .error err =>
    [.call (.FindSubscriptionByID group id true), .render (.NewServiceErrResponse err)]
  | .ok sub =>
    match s.subService.DeleteSubscription group.UID sub with
    | some err =>
      [.call (.FindSubscriptionByID group id true), .call (.DeleteSubscription group.UID sub),
       .render (.NewServiceErrResponse err)]
    | none =>
      [.call (.FindSubscriptionByID group id true), .call (.DeleteSubscription group.UID sub),
       .render (.NewServerResponse "Subscription deleted successfully" none StatusOK)]

/-- `Server.UpdateSubscription`. -/
def UpdateSubscription (s : Server) (r : Request) : List Event :=
  match s.ReadJSONUpdate r with
  | .error err => [.render (.NewErrorResponse (s.errorMessage err) StatusBadRequest)]
  | .ok update =>
    let g := r.group
    let subscription := URLParam r "subscriptionID"
    match s.subService.UpdateSubscription g.UID subscription update with
    | .error err =>
      [.call (.UpdateSubscription g.UID subscription update), .render (.NewServiceErrResponse err)]
    | .ok sub =>
      [.call (.UpdateSubscription g.UID subscription update),
       .render (.NewServerResponse "Subscription updated successfully" (some sub) StatusAccepted)]

/-- `Server.ToggleSubscriptionStatus`. -/
def ToggleSubscriptionStatus (s : Server) (r : Request) : List Event :=
  let g := r.group
  let subscription := URLParam r "subscriptionID"
  match s.subService.ToggleSubscriptionStatus g.UID subscription with
  | .error err =>
    [.call (.ToggleSubscriptionStatus g.UID subscription), .render (.NewServiceErrResponse err)]
  | .ok sub =>
    [.call (.ToggleSubscriptionStatus g.UID subscription),
     .render (.NewServerResponse "Subscription status updated successfully" (some sub)
       StatusAccepted)]

/-- A server whose request decoding and service calls all succeed. -/
def okServer : Server where
  subService := {
    CreateSubscription := fun g sub => .ok { GroupID := g.UID, Name := sub.Name, Type_ := sub.Type_ }
    UpdateSubscription := fun gid id update => .ok { UID := id, GroupID := gid, Name := update.Name }
    ToggleSubscriptionStatus := fun gid id => .ok { UID := id, GroupID := gid, Status := "inactive" }
    FindSubscriptionByID := fun g id _ => .ok { UID := id, GroupID := g.UID }
    DeleteSubscription := fun _ _ => none }
  ReadJSONServer := fun _ => none
  ReadJSONUpdate := fun _ => .ok {}
  errorMessage := fun _ => "error"

end server

/-! ## The delivery core exercised by `server/event_integration_test.go` -/

namespace core

/-- Delivery statuses: those of the spec's state machine, and the failure status
that the integration tests seed (`datastore.FailureEventStatus`). -/
inductive EventDeliveryStatus where
  | Scheduled
  | Processing
  | Success
  | Failure
  | Discarded
  deriving DecidableEq, Repr, Inhabited

/-- Modelled from the spec: the `EventDelivery` record of the data model ("unique
id, event id, endpoint id, subscription id, group id, status, attempt metadata"),
with the owning application id that the batch filters select on. -/
structure EventDelivery where
  UID : String := ""
  AppID : String := ""
  EventID : String := ""
  EndpointID : String := ""
  SubscriptionID : String := ""
  GroupID : String := ""
  Status : EventDeliveryStatus := .Scheduled
  AttemptCount : Nat := 0
  LastAttemptTime : Option Int := none
  NextRetryTime : Option Int := none
  deriving DecidableEq, Repr, Inhabited

/-- Modelled from the spec: a batch filter "by application id, event id ... and/or
current status"; an absent component constrains nothing. -/
structure Filter where
  AppID : Option String := none
  EventID : Option String := none
  Status : Option EventDeliveryStatus := none
  deriving DecidableEq, Repr, Inhabited

/-- Whether a delivery is selected by a filter. -/
def Filter.accepts (f : Filter) (d : EventDelivery) : Bool :=
  (match f.AppID with
    | some a => decide (d.AppID = a)
    | none => true) &&
  (match f.EventID with
    | some e => decide (d.EventID = e)
    | none => true) &&
  (match f.Status with
    | some st => decide (d.Status = st)
    | none => true)

/-- Modelled from the spec: the Resend transition on one record, "forces status to
`Scheduled`, resets `next-retry time` to now" and leaves the attempt count;
"re-resending an already-`Scheduled` delivery is a no-op transition". -/
def resendTransition (now : Int) (d : EventDelivery) : EventDelivery :=
  if d.Status = .Scheduled then d
  else { d with Status := .Scheduled, NextRetryTime := some now }

/-- Apply the Resend transition to the first record with the given id and hand
back the collection and the updated record; `none` when no record has the id. -/
def resendFirst (now : Int) (id : String) :
    List EventDelivery → Option (List EventDelivery × EventDelivery)
  | [] => none
  | d :: ds =>
      if d.UID = id then some (resendTransition now d :: ds, resendTransition now d)
      else (resendFirst now id ds).map (fun r => (d :: r.1, r.2))

/-- Errors of the batch operations. -/
inductive CoreError where
  | NotFound
  | NoMatchingEndpoint
  deriving DecidableEq, Repr

/-- Modelled from the spec: Resend of a single delivery by id, which is implemented elsewhere
in the repository: `NotFound` when the delivery is absent, otherwise the updated
collection and the updated delivery. -/
def Resend (now : Int) (deliveries : List EventDelivery) (id : String) :
    Except CoreError (List EventDelivery × EventDelivery) :=
  match resendFirst now id deliveries with
  | some r => .ok r
  | none => .error .NotFound

/-- The first record with the given id is in state `Scheduled`. -/
def firstIsScheduled (ds : List EventDelivery) (id : String) : Prop :=
  ∃ d, ds.find? (fun d => decide (d.UID = id)) = some d ∧ d.Status = .Scheduled

/-- The loop of ForceResend: each id is resent in turn on the collection left by
the ids before it; a success bumps the first counter, a failure the second, and
the loop goes on either way. -/
def forceResendLoop (now : Int) :
    List String → List EventDelivery × Nat × Nat → List EventDelivery × Nat × Nat
  | [], acc => acc
  | id :: ids, (ds, successes, failures) =>
      match Resend now ds id with
      | .ok (ds2, _) => forceResendLoop now ids (ds2, successes + 1, failures)
      | .error _ => forceResendLoop now ids (ds, successes, failures + 1)

/-- Modelled from the spec: ForceResend, which is implemented elsewhere in the repository,
"takes an explicit list of delivery ids (not a filter) and resends each;
aggregates per-id outcomes into a summary count of successes and failures rather
than failing the whole batch on one bad id", answering with the message
`"<n> successful, <m> failed"`. -/
def ForceResend (now : Int) (deliveries : List EventDelivery) (ids : List String) :
    List EventDelivery × String :=
  let r := forceResendLoop now ids (deliveries, 0, 0)
  (r.1, toString r.2.1 ++ " successful, " ++ toString r.2.2 ++ " failed")

/-- Modelled from the spec: CountAffected, which is implemented elsewhere in the repository,
a "read-only dry-run returning the count of deliveries the above filter would
touch, without mutating anything".  It hands back the collection it was given
and the count. -/
def CountAffected (deliveries : List EventDelivery) (f : Filter) : List EventDelivery × Nat :=
  (deliveries, (deliveries.filter f.accepts).length)

/-- The loop of BatchRetry: walk the collection, apply the Resend transition to
each record the filter accepts, count the records so transitioned. -/
def batchRetryLoop (now : Int) (f : Filter) :
    List EventDelivery → List EventDelivery × Nat
  | [] => ([], 0)
  | d :: ds =>
      let r := batchRetryLoop now f ds
      if f.accepts d then (resendTransition now d :: r.1, r.2 + 1)
      else (d :: r.1, r.2)

/-- Modelled from the spec: BatchRetry, which is implemented elsewhere in the repository,
"applies Resend semantics to every delivery matching the filter", each record's
mutation being independent.  It returns the collection and the number of records
it transitioned. -/
def BatchRetry (now : Int) (deliveries : List EventDelivery) (f : Filter) :
    List EventDelivery × Nat :=
  batchRetryLoop now f deliveries

/-- The record `testdb.SeedEventDelivery` stores for the given id, application,
event and status. -/
def SeedEventDelivery (uid appID eventID : String) (status : EventDeliveryStatus) :
    EventDelivery :=
  { UID := uid, AppID := appID, EventID := eventID, Status := status }

/-- An application with the ids of its endpoints. -/
structure Application where
  UID : String := ""
  GroupID : String := ""
  Endpoints : List String := []
  deriving DecidableEq, Repr, Inhabited

/-- Modelled from the spec: a `Subscription` "binds a group + source + endpoint
under a filter and policy set", with a status (active or not) and the event types
its filter lists (`*` is the wildcard). -/
structure Subscription where
  UID : String := ""
  GroupID : String := ""
  EndpointID : String := ""
  Active : Bool := true
  EventTypes : List String := ["*"]
  deriving DecidableEq, Repr, Inhabited

/-- Modelled from the spec: the immutable `Event`. -/
structure Event where
  UID : String := ""
  AppID : String := ""
  GroupID : String := ""
  EventType : String := ""
  Data : String := ""
  deriving DecidableEq, Repr, Inhabited

/-- The records the ingestion path reads and writes. -/
structure State where
  applications : List Application := []
  subscriptions : List Subscription := []
  events : List Event := []
  deliveries : List EventDelivery := []
  deriving DecidableEq, Repr, Inhabited

/-- The body of a create-event request. -/
structure CreateEventRequest where
  AppID : String := ""
  EventType : String := ""
  Data : String := ""
  deriving DecidableEq, Repr, Inhabited

/-- The endpoints of the named application; none when it is unknown. -/
def endpointsOf (st : State) (appID : String) : List String :=
  match st.applications.find? (fun a => decide (a.UID = appID)) with
  | some a => a.Endpoints
  | none => []

/-- Modelled from the spec: the filter of a subscription accepts an event type
when it lists the wildcard `*` or that exact type. -/
def Subscription.acceptsType (s : Subscription) (eventType : String) : Bool :=
  s.EventTypes.contains "*" || s.EventTypes.contains eventType

/-- Modelled from the spec: the Subscription Matcher, which is
implemented elsewhere in the repository, resolves "the set of active subscriptions whose
FilterConfiguration accepts the event"; an empty result "signals no endpoints"
and is "observed in the shown test as an application-has-no-endpoint rejection",
so the subscriptions considered are those bound to an endpoint of the event's
application. -/
def Matcher (st : State) (event : Event) : List Subscription :=
  st.subscriptions.filter (fun s =>
    s.Active && decide (s.GroupID = event.GroupID) &&
      (endpointsOf st event.AppID).contains s.EndpointID && s.acceptsType event.EventType)

/-- Modelled from the spec: the Fan-Out Engine creates one delivery in state
`Scheduled` for each subscription, skipping a subscription that already has a
delivery for this event. -/
def FanOut (newUID : Nat → String) (event : Event) :
    List Subscription → List EventDelivery → List EventDelivery
  | [], deliveries => deliveries
  | s :: subs, deliveries =>
      if deliveries.any (fun d => decide (d.EventID = event.UID ∧ d.SubscriptionID = s.UID)) then
        FanOut newUID event subs deliveries
      else
        FanOut newUID event subs (deliveries ++ [{
          UID := newUID deliveries.length, AppID := event.AppID, EventID := event.UID,
          EndpointID := s.EndpointID, SubscriptionID := s.UID, GroupID := s.GroupID,
          Status := .Scheduled }])

/-- Modelled from the spec: event creation, which is implemented elsewhere in the repository:
"Create event triggers Matcher + Fan-Out; 201 on at least one successful
schedule, 400 if zero endpoints match".  `eventUID` and `newUID` are the fresh
ids. -/
def CreateEvent (st : State) (groupID eventUID : String) (newUID : Nat → String)
    (req : CreateEventRequest) : State × Nat :=
  let event : Event :=
    { UID := eventUID, AppID := req.AppID, GroupID := groupID, EventType := req.EventType,
      Data := req.Data }
  let subs := Matcher st event
  if subs.isEmpty then
    (st, 400)
  else
    ({ st with events := st.events ++ [event],
               deliveries := FanOut newUID event subs st.deliveries }, 201)

end core

/-! ## The retry scheduler -/

namespace core

/-- The policy kinds of a `RetryConfiguration`. -/
inductive RetryPolicy where
  | linear
  | exponential
  deriving DecidableEq, Repr, Inhabited

/-- Modelled from the spec: `RetryConfiguration` is "policy kind: linear |
exponential, base duration, maximum retry count"; durations are in
milliseconds. -/
structure RetryConfiguration where
  Policy : RetryPolicy := .linear
  Duration : Int := 0
  RetryCount : Nat := 0
  deriving DecidableEq, Repr, Inhabited

/-- Modelled from the spec: the delay before the next attempt, "linear: now + base
duration", "exponential: now + base duration × 2^(attempt count − 1)", for the
attempt count after its increment. -/
def retryDelay (cfg : RetryConfiguration) (attemptCount : Nat) : Int :=
  match cfg.Policy with
  | .linear => cfg.Duration
  | .exponential => cfg.Duration * 2 ^ (attemptCount - 1)

/-- Modelled from the spec: `ScheduleNext`, which is implemented elsewhere in the
repository.  "Every invocation increments attempt count by exactly one and
records last-attempt time"; "if attempt count (after increment) ≥ maximum retry
count, transition to Discarded instead of rescheduling"; the next-retry time is
set only on a delivery rescheduled by a retry. -/
def ScheduleNext (now : Int) (d : EventDelivery) (cfg : RetryConfiguration) : EventDelivery :=
  let attemptCount := d.AttemptCount + 1
  let d := { d with AttemptCount := attemptCount, LastAttemptTime := some now }
  if attemptCount ≥ cfg.RetryCount then
    { d with Status := .Discarded, NextRetryTime := none }
  else
    { d with Status := .Scheduled, NextRetryTime := some (now + retryDelay cfg attemptCount) }

/-- The terminal states of a delivery: success, and the two failure ends. -/
def EventDeliveryStatus.isTerminal : EventDeliveryStatus → Bool
  | .Success => true
  | .Failure => true
  | .Discarded => true
  | _ => false

end core

/-! ## `orgInviteRepo.LoadOrganisationsInvitesPaged` -/

/-- A Go slice: `nil`, or a (possibly empty) list of items. -/
inductive Slice (ε : Type) where
  | nil
  | ofList (items : List ε)
  deriving DecidableEq, Repr

/-- The fields of `datastore.Pageable` the repository reads (`Sort_` is Go's
`Sort`). -/
structure Pageable where
  Page : Int := 0
  PerPage : Int := 0
  Sort_ : Int := 0
  deriving DecidableEq, Repr, Inhabited

/-- The page metadata `datastore.PaginationData`; `{}` is its zero value. -/
structure PaginationData where
  Total : Int := 0
  Page : Int := 0
  PerPage : Int := 0
  Prev : Int := 0
  Next : Int := 0
  TotalPage : Int := 0
  deriving DecidableEq, Repr, Inhabited

/-- The query handed to the pagination library through its builder calls
`Limit`, `Page`, `Sort` and `Filter`. -/
structure PagedQuery where
  Limit : Int
  Page : Int
  SortField : String
  SortValue : Int
  Filter : BsonM
  deriving DecidableEq, Repr

/-- The pagination library's `Decode(&dest).Find()`: on success the slice it
decoded into the destination and the page metadata; on failure the error, the
destination being left as it was. -/
abbrev Pager (ε : Type) := PagedQuery → Except GoError (Slice ε × PaginationData)

namespace orgInviteRepo

/-- The `filter` map that `LoadOrganisationsInvitesPaged` builds.  `IsStringEmpty`
is `util.IsStringEmpty`, declared elsewhere in the repository; `inviteStatus` is
a `datastore.InviteStatus`, a string type whose `String()` is the string
itself. -/
def loadInvitesFilter (IsStringEmpty : String → Bool) (orgID inviteStatus : String) : BsonM :=
  let filter : BsonM := [("document_status", .str ActiveDocumentStatus)]
  let filter := if !IsStringEmpty orgID then
    MemStore.setField "organisation_id" (.str orgID) filter else filter
  let filter := if !IsStringEmpty inviteStatus then
    MemStore.setField "status" (.str inviteStatus) filter else filter
  filter

/-- `orgInviteRepo.LoadOrganisationsInvitesPaged`. -/
def LoadOrganisationsInvitesPaged {ε : Type} (pager : Pager ε) (IsStringEmpty : String → Bool)
    (orgID inviteStatus : String) (pageable : Pageable) :
    Slice ε × PaginationData × Option GoError :=
  let filter := loadInvitesFilter IsStringEmpty orgID inviteStatus
  let organisations : Slice ε := .ofList []
  match pager { Limit := pageable.PerPage, Page := pageable.Page, SortField := "created_at",
                SortValue := pageable.Sort_, Filter := filter } with
  | .error err => (organisations, {}, some err)
  | .ok (organisations, pagination) => (organisations, pagination, none)

end orgInviteRepo

/-! # Theorems -/

/-! ## Error matching -/

theorem errorsIs_wrapped (msg : String) (e target : GoError)
    (h : errorsIs (some e) (some target) = true) :
    errorsIs (some (GoError.wrapped msg e)) (some target) = true := by
  simp only [errorsIs] at h ⊢
  simp [GoError.isChain, h]

theorem errorsIs_nil_noDocuments : errorsIs none (some GoError.ErrNoDocuments) = false := rfl

/-! ## The user repository -/

/-- C1: an input on which the claim breaks.  The store fails with an error that
is not the no-documents condition (the persistence layer refuses the
connection); `FindUserByEmail`, `FindUserByID` and `FindUserByToken` each return
a nil error, so the failure is not surfaced. -/
theorem C1_find_user_drops_store_failure :
    errorsIs (some (GoError.plain "connection refused")) (some GoError.ErrNoDocuments) = false ∧
    ((failingStore User (GoError.plain "connection refused")).FindOne () [("email", .str "a@b.c")]).2
      = some (GoError.plain "connection refused") ∧
    (userRepo.FindUserByEmail (failingStore User (GoError.plain "connection refused")) () "a@b.c").2 = none ∧
    (userRepo.FindUserByID (failingStore User (GoError.plain "connection refused")) () "u1").2 = none ∧
    (userRepo.FindUserByToken (failingStore User (GoError.plain "connection refused")) () "tok").2 = none := by
  refine ⟨?_, ?_, ?_, ?_, ?_⟩ <;>
    simp [failingStore, userRepo.FindUserByEmail, userRepo.FindUserByID, userRepo.FindUserByToken,
      errorsIs, GoError.isChain]

/-- C2, as stated, fails: the store's `Save` and `UpdateByID` answer with
`ErrDuplicateEmail` itself, which is no duplicate-key error of the driver, and
`CreateUser` and `UpdateUser` hand it back, so `ErrDuplicateEmail` is returned
without a duplicate-key report. -/
theorem C2_duplicate_email_without_duplicate_key :
    IsDuplicateKeyError
      (((failingStore User GoError.ErrDuplicateEmail).Save ()
        { ({} : User) with ID := 7, ResetPasswordToken := "t" }).2) = false ∧
    (userRepo.CreateUser (failingStore User GoError.ErrDuplicateEmail) () 7 "t" {}).2.2
      = some GoError.ErrDuplicateEmail ∧
    (userRepo.UpdateUser (failingStore User GoError.ErrDuplicateEmail) () 0 {}).2
      = some GoError.ErrDuplicateEmail := by
  refine ⟨?_, ?_, ?_⟩ <;>
    simp [failingStore, userRepo.CreateUser, userRepo.UpdateUser, IsDuplicateKeyError,
      isDuplicateKeyChain]

/-- C2, amended: `CreateUser` and `UpdateUser` return `ErrDuplicateEmail` when the
store's `Save` / `UpdateByID` reports a duplicate-key error and exactly the
store's result in every other case; hence they return `ErrDuplicateEmail` if and
only if the store reports a duplicate-key error or its error already is
`ErrDuplicateEmail`. -/
theorem C2_create_update_user_error {σ : Type} (store : Store σ User) (s : σ)
    (newObjectID : Nat) (newUUID : String) (now : Int) (user : User) :
    ((userRepo.CreateUser store s newObjectID newUUID user).2.2 =
        if IsDuplicateKeyError
            (store.Save s { user with ID := newObjectID, ResetPasswordToken := newUUID }).2
        then some GoError.ErrDuplicateEmail
        else (store.Save s { user with ID := newObjectID, ResetPasswordToken := newUUID }).2) ∧
    ((userRepo.CreateUser store s newObjectID newUUID user).2.2 = some GoError.ErrDuplicateEmail ↔
        (IsDuplicateKeyError
            (store.Save s { user with ID := newObjectID, ResetPasswordToken := newUUID }).2 = true ∨
          (store.Save s { user with ID := newObjectID, ResetPasswordToken := newUUID }).2
            = some GoError.ErrDuplicateEmail)) ∧
    ((userRepo.UpdateUser store s now user).2 =
        if IsDuplicateKeyError
            (store.UpdateByID s user.UID (userRepo.updateUserDocument now user)).2
        then some GoError.ErrDuplicateEmail
        else (store.UpdateByID s user.UID (userRepo.updateUserDocument now user)).2) ∧
    ((userRepo.UpdateUser store s now user).2 = some GoError.ErrDuplicateEmail ↔
        (IsDuplicateKeyError
            (store.UpdateByID s user.UID (userRepo.updateUserDocument now user)).2 = true ∨
          (store.UpdateByID s user.UID (userRepo.updateUserDocument now user)).2
            = some GoError.ErrDuplicateEmail)) := by
  refine ⟨?_, ?_, ?_, ?_⟩
  · simp only [userRepo.CreateUser]
    split <;> simp_all
  · simp only [userRepo.CreateUser]
    split <;> simp_all
  · simp only [userRepo.UpdateUser]
    split <;> simp_all
  · simp only [userRepo.UpdateUser]
    split <;> simp_all

/-- C4: `FindUserByEmail`, `FindUserByID` and `FindUserByToken` return
`ErrUserNotFound` if and only if `errors.Is` finds the no-documents condition in
the error of the store's lookup; a no-documents condition wrapped inside another
error is found as well. -/
theorem C4_find_user_not_found_iff {σ : Type} (store : Store σ User) (s : σ) (arg : String) :
    ((userRepo.FindUserByEmail store s arg).2 = some GoError.ErrUserNotFound ↔
        errorsIs (store.FindOne s [("email", .str arg)]).2 (some GoError.ErrNoDocuments) = true) ∧
    ((userRepo.FindUserByID store s arg).2 = some GoError.ErrUserNotFound ↔
        errorsIs (store.FindByID s arg).2 (some GoError.ErrNoDocuments) = true) ∧
    ((userRepo.FindUserByToken store s arg).2 = some GoError.ErrUserNotFound ↔
        errorsIs (store.FindOne s [("reset_password_token", .str arg)]).2
          (some GoError.ErrNoDocuments) = true) ∧
    (∀ msg : String, errorsIs (some (GoError.wrapped msg GoError.ErrNoDocuments))
        (some GoError.ErrNoDocuments) = true) := by
  refine ⟨?_, ?_, ?_, ?_⟩
  · simp only [userRepo.FindUserByEmail]
    split <;> simp_all
  · simp only [userRepo.FindUserByID]
    split <;> simp_all
  · simp only [userRepo.FindUserByToken]
    split <;> simp_all
  · intro msg
    exact errorsIs_wrapped msg _ _ (by simp [errorsIs, GoError.isChain])

/-! ## The organisation-invite repository -/

/-- C3, as stated, fails: the store's lookup answers with `ErrOrgInviteNotFound`
itself, which is not the no-documents condition, and both fetch operations hand
it back, so `ErrOrgInviteNotFound` is returned without a no-documents report. -/
theorem C3_invite_not_found_without_no_documents :
    errorsIs (some GoError.ErrOrgInviteNotFound) (some GoError.ErrNoDocuments) = false ∧
    (orgInviteRepo.FetchOrganisationInviteByID
        (failingStore BsonM GoError.ErrOrgInviteNotFound) () "i1").2
      = some GoError.ErrOrgInviteNotFound ∧
    (orgInviteRepo.FetchOrganisationInviteByToken
        (failingStore BsonM GoError.ErrOrgInviteNotFound) () "tok").2
      = some GoError.ErrOrgInviteNotFound := by
  refine ⟨?_, ?_, ?_⟩ <;>
    simp [failingStore, orgInviteRepo.FetchOrganisationInviteByID,
      orgInviteRepo.FetchOrganisationInviteByToken, errorsIs, GoError.isChain]

/-- C3, amended: `FetchOrganisationInviteByID` and `FetchOrganisationInviteByToken`
return `ErrOrgInviteNotFound` when the store reports the no-documents condition
and the store's error unchanged in every other case (nil when the store finds
the document); hence they return `ErrOrgInviteNotFound` if and only if the store
reports the no-documents condition or its error already is
`ErrOrgInviteNotFound`. -/
theorem C3_fetch_invite_error {σ ε : Type} [Inhabited ε] (store : Store σ ε) (s : σ)
    (arg : String) :
    ((orgInviteRepo.FetchOrganisationInviteByID store s arg).2 =
        if errorsIs (store.FindByID s arg).2 (some GoError.ErrNoDocuments)
        then some GoError.ErrOrgInviteNotFound else (store.FindByID s arg).2) ∧
    ((orgInviteRepo.FetchOrganisationInviteByID store s arg).2 = some GoError.ErrOrgInviteNotFound ↔
        (errorsIs (store.FindByID s arg).2 (some GoError.ErrNoDocuments) = true ∨
          (store.FindByID s arg).2 = some GoError.ErrOrgInviteNotFound)) ∧
    ((orgInviteRepo.FetchOrganisationInviteByToken store s arg).2 =
        if errorsIs (store.FindOne s
            [("token", .str arg), ("document_status", .str ActiveDocumentStatus)]).2
          (some GoError.ErrNoDocuments)
        then some GoError.ErrOrgInviteNotFound
        else (store.FindOne s
            [("token", .str arg), ("document_status", .str ActiveDocumentStatus)]).2) ∧
    ((orgInviteRepo.FetchOrganisationInviteByToken store s arg).2
        = some GoError.ErrOrgInviteNotFound ↔
        (errorsIs (store.FindOne s
            [("token", .str arg), ("document_status", .str ActiveDocumentStatus)]).2
          (some GoError.ErrNoDocuments) = true ∨
          (store.FindOne s
            [("token", .str arg), ("document_status", .str ActiveDocumentStatus)]).2
            = some GoError.ErrOrgInviteNotFound)) := by
  refine ⟨?_, ?_, ?_, ?_⟩
  · simp only [orgInviteRepo.FetchOrganisationInviteByID]
  · simp only [orgInviteRepo.FetchOrganisationInviteByID]
    split <;> simp_all
  · simp only [orgInviteRepo.FetchOrganisationInviteByToken]
  · simp only [orgInviteRepo.FetchOrganisationInviteByToken]
    split <;> simp_all

/-! ## The in-memory store -/

namespace MemStore

theorem lookup_setField (k k2 : String) (v : BsonValue) (d : BsonM) :
    lookup k (setField k2 v d) = if k2 = k then some v else lookup k d := by
  induction d with
  | nil => simp [setField, lookup]
  | cons kv rest ih =>
    simp only [setField]
    by_cases h : kv.1 = k2
    · simp only [h, if_true, lookup]
      by_cases h2 : k2 = k <;> simp [h2, h]
    · simp only [h, if_false, lookup, ih]
      by_cases h2 : kv.1 = k
      · have h3 : ¬ k2 = k := fun e => h (h2.trans e.symm)
        simp [h2, h3]
      · simp [h2]

theorem matchesFilter_single (k : String) (v : BsonValue) (d : BsonM) :
    matchesFilter [(k, v)] d = decide (lookup k d = some v) := by
  simp [matchesFilter]

theorem updateFirst_some (filter patch : BsonM) (docs docs2 : List BsonM)
    (h : updateFirst filter patch docs = some docs2) :
    ∃ pre d post, docs = pre ++ d :: post ∧ docs2 = pre ++ applyPatch patch d :: post ∧
      matchesFilter filter d = true ∧ ∀ x ∈ pre, matchesFilter filter x = false := by
  induction docs generalizing docs2 with
  | nil => simp [updateFirst] at h
  | cons d ds ih =>
    simp only [updateFirst] at h
    by_cases hm : matchesFilter filter d = true
    · simp only [hm, if_true, Option.some.injEq] at h
      exact ⟨[], d, ds, rfl, by simp [← h], hm, by simp⟩
    · simp only [hm, Bool.false_eq_true, if_false] at h
      cases hu : updateFirst filter patch ds with
      | none => simp [hu] at h
      | some ds2 =>
      simp only [hu, Option.map_some', Option.some.injEq] at h
      subst h
      have hds := hu
      obtain ⟨pre, x, post, h1, h2, h3, h4⟩ := ih ds2 hds
      refine ⟨d :: pre, x, post, by simp [h1], by simp [h2], h3, ?_⟩
      intro y hy
      rcases List.mem_cons.mp hy with rfl | hy
      · simpa using hm
      · exact h4 y hy

theorem updateFirst_none (filter patch : BsonM) (docs : List BsonM)
    (h : updateFirst filter patch docs = none) :
    ∀ x ∈ docs, matchesFilter filter x = false := by
  induction docs with
  | nil => simp
  | cons d ds ih =>
    simp only [updateFirst] at h
    by_cases hm : matchesFilter filter d = true
    · simp [hm] at h
    · simp only [hm, Bool.false_eq_true, if_false] at h
      cases hu : updateFirst filter patch ds with
      | some ds2 => simp [hu] at h
      | none =>
      intro x hx
      rcases List.mem_cons.mp hx with rfl | hx
      · simpa using hm
      · exact ih hu x hx

end MemStore

/-- C5: `DeleteOrganisationInvite` is a soft delete.  Over any store it is
exactly one `UpdateOne` whose filter is `uid = uid` and whose patch sets
`deleted_at` and `document_status` (to the deleted status), and it returns that
call's state and error unchanged.  Over the in-memory store either no record has
this uid and the collection is returned as it was, or the collection keeps every
record in place, the one changed record is the first with this uid, it now
carries the deleted status and the deletion time, and every other field of it is
as before. -/
theorem C5_delete_invite_is_soft {σ ε : Type} (store : Store σ ε) (s : σ)
    (docs : List BsonM) (now : Int) (uid : String) :
    orgInviteRepo.DeleteOrganisationInvite store s now uid =
      store.UpdateOne s [("uid", .str uid)]
        [("deleted_at", .dateTime now), ("document_status", .str DeletedDocumentStatus)] ∧
    (orgInviteRepo.DeleteOrganisationInvite (recording store) (s, []) now uid).1.2 =
      [WriteCall.UpdateOne [("uid", .str uid)]
        [("deleted_at", .dateTime now), ("document_status", .str DeletedDocumentStatus)]] ∧
    (((∀ x ∈ docs, MemStore.lookup "uid" x ≠ some (.str uid)) ∧
        orgInviteRepo.DeleteOrganisationInvite MemStore.store docs now uid =
          (docs, some GoError.ErrNoDocuments)) ∨
      (∃ pre d d2 post, docs = pre ++ d :: post ∧
        orgInviteRepo.DeleteOrganisationInvite MemStore.store docs now uid =
          (pre ++ d2 :: post, none) ∧
        (∀ x ∈ pre, MemStore.lookup "uid" x ≠ some (.str uid)) ∧
        MemStore.lookup "uid" d = some (.str uid) ∧
        MemStore.lookup "document_status" d2 = some (.str DeletedDocumentStatus) ∧
        MemStore.lookup "deleted_at" d2 = some (.dateTime now) ∧
        (∀ k, k ≠ "document_status" → k ≠ "deleted_at" →
          MemStore.lookup k d2 = MemStore.lookup k d))) := by
  refine ⟨?_, ?_, ?_⟩
  · simp only [orgInviteRepo.DeleteOrganisationInvite]
    split <;> rename_i h <;> exact Prod.ext rfl h.symm
  · simp only [orgInviteRepo.DeleteOrganisationInvite, recording, List.nil_append]
    split <;> rfl
  · cases hu : MemStore.updateFirst [("uid", .str uid)]
        [("deleted_at", .dateTime now), ("document_status", .str DeletedDocumentStatus)] docs with
    | none =>
      left
      refine ⟨?_, ?_⟩
      · intro x hx
        have := MemStore.updateFirst_none _ _ _ hu x hx
        simpa [MemStore.matchesFilter_single] using this
      · simp [orgInviteRepo.DeleteOrganisationInvite, MemStore.store, MemStore.updateResult, hu]
    | some docs2 =>
      right
      obtain ⟨pre, d, post, h1, h2, h3, h4⟩ := MemStore.updateFirst_some _ _ _ _ hu
      refine ⟨pre, d, MemStore.applyPatch
        [("deleted_at", .dateTime now), ("document_status", .str DeletedDocumentStatus)] d,
        post, h1, ?_, ?_, ?_, ?_, ?_, ?_⟩
      · simp [orgInviteRepo.DeleteOrganisationInvite, MemStore.store, MemStore.updateResult,
          hu, h2]
      · intro x hx
        simpa [MemStore.matchesFilter_single] using h4 x hx
      · simpa [MemStore.matchesFilter_single] using h3
      · simp [MemStore.applyPatch, MemStore.lookup_setField]
      · simp [MemStore.applyPatch, MemStore.lookup_setField]
      · intro k hk1 hk2
        simp [MemStore.applyPatch, MemStore.lookup_setField, Ne.symm hk1, Ne.symm hk2]

/-- C6: a soft-deleted invite is not found.  Over the in-memory store, when a
record with uid `u` and token `t` is present, `u` names at most one record, and
every active record carrying token `t` is the record with uid `u`, then
`DeleteOrganisationInvite u` succeeds and `FetchOrganisationInviteByToken t` on
the resulting store returns `ErrOrgInviteNotFound`. -/
theorem C6_deleted_invite_not_found (docs : List BsonM) (now : Int) (u t : String)
    (hex : ∃ d ∈ docs, MemStore.lookup "uid" d = some (.str u) ∧
      MemStore.lookup "token" d = some (.str t))
    (huniq : docs.countP (fun d => decide (MemStore.lookup "uid" d = some (.str u))) ≤ 1)
    (hother : ∀ d ∈ docs, MemStore.lookup "token" d = some (.str t) →
      MemStore.lookup "document_status" d = some (.str ActiveDocumentStatus) →
      MemStore.lookup "uid" d = some (.str u)) :
    (orgInviteRepo.DeleteOrganisationInvite MemStore.store docs now u).2 = none ∧
    (orgInviteRepo.FetchOrganisationInviteByToken MemStore.store
      (orgInviteRepo.DeleteOrganisationInvite MemStore.store docs now u).1 t).2
      = some GoError.ErrOrgInviteNotFound := by
  cases hu : MemStore.updateFirst [("uid", .str u)]
      [("deleted_at", .dateTime now), ("document_status", .str DeletedDocumentStatus)] docs with
  | none =>
    obtain ⟨d, hd, hd1, _⟩ := hex
    have := MemStore.updateFirst_none _ _ _ hu d hd
    simp [MemStore.matchesFilter_single, hd1] at this
  | some docs2 =>
    obtain ⟨pre, d, post, h1, h2, h3, h4⟩ := MemStore.updateFirst_some _ _ _ _ hu
    have hd : MemStore.lookup "uid" d = some (.str u) := by
      simpa [MemStore.matchesFilter_single] using h3
    have hpre : ∀ x ∈ pre, MemStore.lookup "uid" x ≠ some (.str u) := by
      intro x hx
      simpa [MemStore.matchesFilter_single] using h4 x hx
    have hpost : ∀ x ∈ post, MemStore.lookup "uid" x ≠ some (.str u) := by
      intro x hx hxu
      subst h1
      have hpos : 0 < post.countP (fun d => decide (MemStore.lookup "uid" d = some (.str u))) :=
        List.countP_pos_iff.mpr ⟨x, hx, by simpa using hxu⟩
      simp only [List.countP_append, List.countP_cons, hd, decide_True, if_true] at huniq
      omega
    have hdel : orgInviteRepo.DeleteOrganisationInvite MemStore.store docs now u = (docs2, none) := by
      simp [orgInviteRepo.DeleteOrganisationInvite, MemStore.store, MemStore.updateResult, hu]
    rw [hdel]
    refine ⟨rfl, ?_⟩
    have hnone : docs2.find? (MemStore.matchesFilter
        [("token", .str t), ("document_status", .str ActiveDocumentStatus)]) = none := by
      rw [List.find?_eq_none]
      intro x hx
      subst h2
      have hkeep : ∀ y ∈ docs, MemStore.lookup "uid" y ≠ some (.str u) →
          ¬ (MemStore.matchesFilter
            [("token", .str t), ("document_status", .str ActiveDocumentStatus)] y = true) := by
        intro y hy hyu hm
        simp [MemStore.matchesFilter] at hm
        exact hyu (hother y hy hm.1 hm.2)
      rcases List.mem_append.mp hx with hx | hx
      · exact hkeep x (by simp [h1, hx]) (hpre x hx)
      · rcases List.mem_cons.mp hx with rfl | hx
        · simp [MemStore.matchesFilter, MemStore.applyPatch, MemStore.lookup_setField,
            ActiveDocumentStatus, DeletedDocumentStatus]
        · exact hkeep x (by simp [h1, hx]) (hpost x hx)
    simp [orgInviteRepo.FetchOrganisationInviteByToken, MemStore.store, MemStore.findResult,
      hnone, errorsIs, GoError.isChain]

/-- Witness of C6 on a collection of two invites: the one with uid `i1` and token
`t1` is deleted, the other stays. -/
theorem C6_deleted_invite_not_found_witness :
    (orgInviteRepo.DeleteOrganisationInvite MemStore.store
      [[("uid", .str "i1"), ("token", .str "t1"), ("document_status", .str ActiveDocumentStatus)],
       [("uid", .str "i2"), ("token", .str "t2"), ("document_status", .str ActiveDocumentStatus)]]
      5 "i1").2 = none ∧
    (orgInviteRepo.FetchOrganisationInviteByToken MemStore.store
      (orgInviteRepo.DeleteOrganisationInvite MemStore.store
        [[("uid", .str "i1"), ("token", .str "t1"), ("document_status", .str ActiveDocumentStatus)],
         [("uid", .str "i2"), ("token", .str "t2"), ("document_status", .str ActiveDocumentStatus)]]
        5 "i1").1 "t1").2 = some GoError.ErrOrgInviteNotFound :=
  C6_deleted_invite_not_found _ 5 "i1" "t1"
    ⟨_, List.mem_cons_self _ _, by simp [MemStore.lookup], by simp [MemStore.lookup]⟩
    (by simp [MemStore.lookup, List.countP_cons])
    (by simp [MemStore.lookup])

/-! ## The subscription handlers -/

theorem CreateSubscription_success (s : server.Server) (r : server.Request)
    (subscription : server.Subscription)
    (hread : s.ReadJSONServer r = none)
    (hsvc : s.subService.CreateSubscription r.group { Type_ := r.group.Type_ } = .ok subscription) :
    server.rendered (server.CreateSubscription s r) =
      [.NewServerResponse "Subscriptions created successfully" (some subscription) 201] := by
  simp only [server.CreateSubscription, hread, hsvc]
  rfl

theorem UpdateSubscription_success (s : server.Server) (r : server.Request)
    (update : server.UpdateSubscriptionModel) (sub : server.Subscription)
    (hread : s.ReadJSONUpdate r = .ok update)
    (hsvc : s.subService.UpdateSubscription r.group.UID (server.URLParam r "subscriptionID") update
      = .ok sub) :
    server.rendered (server.UpdateSubscription s r) =
      [.NewServerResponse "Subscription updated successfully" (some sub) 202] := by
  simp only [server.UpdateSubscription, hread, hsvc]
  rfl

theorem ToggleSubscriptionStatus_success (s : server.Server) (r : server.Request)
    (sub : server.Subscription)
    (hsvc : s.subService.ToggleSubscriptionStatus r.group.UID (server.URLParam r "subscriptionID")
      = .ok sub) :
    server.rendered (server.ToggleSubscriptionStatus s r) =
      [.NewServerResponse "Subscription status updated successfully" (some sub) 202] := by
  simp only [server.ToggleSubscriptionStatus, hsvc]
  rfl

/-- C7: an input on which the claim breaks.  On a server whose request decoding
and service calls succeed, the one response `CreateSubscription` renders has
status 201 and the one response each of `UpdateSubscription` and
`ToggleSubscriptionStatus` renders has status 202; none is the 200 that the
handlers' `@Success 200` doc comments declare. -/
theorem C7_success_status_is_not_200 (serviceErrCode : GoError → Nat) :
    (server.rendered (server.CreateSubscription server.okServer
        { group := { UID := "g1", Type_ := "outgoing" } })).map
      (server.Response.StatusCode serviceErrCode) = [201] ∧
    (server.rendered (server.UpdateSubscription server.okServer
        { group := { UID := "g1", Type_ := "outgoing" },
          urlParams := [("subscriptionID", "s1")] })).map
      (server.Response.StatusCode serviceErrCode) = [202] ∧
    (server.rendered (server.ToggleSubscriptionStatus server.okServer
        { group := { UID := "g1", Type_ := "outgoing" },
          urlParams := [("subscriptionID", "s1")] })).map
      (server.Response.StatusCode serviceErrCode) = [202] := by
  refine ⟨?_, ?_, ?_⟩
  · rw [CreateSubscription_success server.okServer _ _ rfl rfl]
    rfl
  · rw [UpdateSubscription_success server.okServer _ _ _ rfl rfl]
    rfl
  · rw [ToggleSubscriptionStatus_success server.okServer _ _ rfl]
    rfl

/-! ## The batch operations -/

namespace core

theorem resendTransition_status (now : Int) (d : EventDelivery) :
    (resendTransition now d).Status = .Scheduled := by
  unfold resendTransition
  split
  · assumption
  · rfl

theorem resendTransition_UID (now : Int) (d : EventDelivery) :
    (resendTransition now d).UID = d.UID := by
  unfold resendTransition
  split <;> rfl

theorem resendFirst_none_iff (now : Int) (id : String) (ds : List EventDelivery) :
    resendFirst now id ds = none ↔ id ∉ ds.map (fun d => d.UID) := by
  induction ds with
  | nil => simp [resendFirst]
  | cons d ds ih =>
    simp only [resendFirst]
    by_cases h : d.UID = id
    · simp [h]
    · have h2 : ¬ id = d.UID := fun e => h e.symm
      simp only [h, if_false, Option.map_eq_none', ih]
      simp [h2]

theorem resendFirst_uids (now : Int) (id : String) (ds : List EventDelivery)
    (r : List EventDelivery × EventDelivery) (h : resendFirst now id ds = some r) :
    r.1.map (fun d => d.UID) = ds.map (fun d => d.UID) := by
  induction ds generalizing r with
  | nil => simp [resendFirst] at h
  | cons d ds ih =>
    simp only [resendFirst] at h
    by_cases hd : d.UID = id
    · simp only [hd, if_true, Option.some.injEq] at h
      subst h
      simp [resendTransition_UID]
    · simp only [hd, if_false] at h
      cases hr : resendFirst now id ds with
      | none => simp [hr] at h
      | some r2 =>
        simp only [hr, Option.map_some', Option.some.injEq] at h
        subst h
        simp [ih r2 hr]

theorem resendFirst_scheduled (now : Int) (id : String) (ds : List EventDelivery)
    (r : List EventDelivery × EventDelivery) (h : resendFirst now id ds = some r) :
    firstIsScheduled r.1 id := by
  induction ds generalizing r with
  | nil => simp [resendFirst] at h
  | cons d ds ih =>
    simp only [resendFirst] at h
    by_cases hd : d.UID = id
    · simp only [hd, if_true, Option.some.injEq] at h
      subst h
      exact ⟨resendTransition now d, by simp [List.find?, resendTransition_UID, hd],
        resendTransition_status now d⟩
    · simp only [hd, if_false] at h
      cases hr : resendFirst now id ds with
      | none => simp [hr] at h
      | some r2 =>
        simp only [hr, Option.map_some', Option.some.injEq] at h
        subst h
        obtain ⟨x, hx, hs⟩ := ih r2 hr
        exact ⟨x, by simp [List.find?, hd, hx], hs⟩

theorem resendFirst_keeps_scheduled (now : Int) (id id2 : String) (ds : List EventDelivery)
    (r : List EventDelivery × EventDelivery) (h : resendFirst now id2 ds = some r)
    (hp : firstIsScheduled ds id) : firstIsScheduled r.1 id := by
  induction ds generalizing r with
  | nil => simp [resendFirst] at h
  | cons d ds ih =>
    simp only [resendFirst] at h
    obtain ⟨x, hx, hs⟩ := hp
    by_cases hd2 : d.UID = id2
    · simp only [hd2, if_true, Option.some.injEq] at h
      subst h
      by_cases hd : d.UID = id
      · exact ⟨resendTransition now d, by simp [List.find?, resendTransition_UID, hd],
          resendTransition_status now d⟩
      · refine ⟨x, ?_, hs⟩
        simp only [List.find?, hd, decide_False] at hx
        simp [List.find?, resendTransition_UID, hd, hx]
    · simp only [hd2, if_false] at h
      cases hr : resendFirst now id2 ds with
      | none => simp [hr] at h
      | some r2 =>
        simp only [hr, Option.map_some', Option.some.injEq] at h
        subst h
        by_cases hd : d.UID = id
        · simp only [List.find?, hd, decide_True, Option.some.injEq] at hx
          subst hx
          exact ⟨d, by simp [List.find?, hd], hs⟩
        · simp only [List.find?, hd, decide_False] at hx
          obtain ⟨y, hy, hys⟩ := ih r2 hr ⟨x, hx, hs⟩
          exact ⟨y, by simp [List.find?, hd, hy], hys⟩

theorem forceResendLoop_spec (now : Int) (ids : List String) (ds : List EventDelivery)
    (s f : Nat) :
    (forceResendLoop now ids (ds, s, f)).2.1 =
        s + ids.countP (fun id => decide (id ∈ ds.map (fun d => d.UID))) ∧
    (forceResendLoop now ids (ds, s, f)).2.2 =
        f + ids.countP (fun id => decide (id ∉ ds.map (fun d => d.UID))) ∧
    (forceResendLoop now ids (ds, s, f)).1.map (fun d => d.UID) = ds.map (fun d => d.UID) ∧
    (∀ id, firstIsScheduled ds id → firstIsScheduled (forceResendLoop now ids (ds, s, f)).1 id) ∧
    (∀ id ∈ ids, id ∈ ds.map (fun d => d.UID) →
      firstIsScheduled (forceResendLoop now ids (ds, s, f)).1 id) := by
  induction ids generalizing ds s f with
  | nil => simp [forceResendLoop]
  | cons id ids ih =>
    simp only [forceResendLoop, Resend]
    cases hr : resendFirst now id ds with
    | none =>
      have hid : id ∉ ds.map (fun d => d.UID) := (resendFirst_none_iff now id ds).mp hr
      obtain ⟨h1, h2, h3, h4, h5⟩ := ih ds s (f + 1)
      refine ⟨?_, ?_, h3, h4, ?_⟩
      · rw [h1, List.countP_cons]
        simp only [hid, decide_False, Bool.false_eq_true, if_false, Nat.add_zero]
      · rw [h2, List.countP_cons]
        simp only [hid, not_false_eq_true, decide_True, if_true]
        omega
      · intro x hx hxm
        rcases List.mem_cons.mp hx with rfl | hx
        · exact absurd hxm hid
        · exact h5 x hx hxm
    | some r =>
      have hid : id ∈ ds.map (fun d => d.UID) := by
        by_contra hc
        rw [(resendFirst_none_iff now id ds).mpr hc] at hr
        exact Option.noConfusion hr
      have hu := resendFirst_uids now id ds r hr
      obtain ⟨h1, h2, h3, h4, h5⟩ := ih r.1 (s + 1) f
      rw [hu] at h1 h2 h3 h5
      refine ⟨?_, ?_, h3, ?_, ?_⟩
      · rw [h1, List.countP_cons]
        simp only [hid, decide_True, if_true]
        omega
      · rw [h2, List.countP_cons]
        simp only [hid, not_true_eq_false, decide_False, Bool.false_eq_true, if_false,
          Nat.add_zero]
      · intro x hx
        exact h4 x (resendFirst_keeps_scheduled now x id ds r hr hx)
      · intro x hx hxm
        rcases List.mem_cons.mp hx with rfl | hx
        · exact h4 x (resendFirst_scheduled now x ds r hr)
        · exact h5 x hx hxm

theorem batchRetryLoop_spec (now : Int) (f : Filter) (ds : List EventDelivery) :
    (batchRetryLoop now f ds).2 = (ds.filter f.accepts).length ∧
    (batchRetryLoop now f ds).1 =
      ds.map (fun d => if f.accepts d then resendTransition now d else d) ∧
    (ds.zip (batchRetryLoop now f ds).1).countP
      (fun p => f.accepts p.1 && decide (p.2.Status = .Scheduled)) = (ds.filter f.accepts).length := by
  induction ds with
  | nil => simp [batchRetryLoop]
  | cons d ds ih =>
    obtain ⟨h1, h2, h3⟩ := ih
    simp only [batchRetryLoop]
    by_cases hd : f.accepts d = true
    · simp only [hd, if_true, List.filter_cons_of_pos, List.length_cons, h1, h2, List.map_cons,
        List.zip_cons_cons, List.countP_cons, resendTransition_status, decide_True,
        Bool.and_self, true_and]
      rw [h2] at h3
      simp [h3]
    · simp only [hd, Bool.false_eq_true, if_false, h1, h2, List.map_cons, List.zip_cons_cons,
        List.countP_cons, Bool.false_and, true_and]
      rw [h2] at h3
      simp [h3, hd]

end core

/-- C8: ForceResend resends each id on its own and reports the counts.  A resend
of an id succeeds, at whatever point of the batch, exactly when the id names a
delivery; the message is `"<s> successful, <f> failed"` with `s` the number of
ids naming a delivery and `f` the number of the others, `s + f` being the length
of the list; every listed id that names a delivery ends up `Scheduled`, however
many others fail.  Three existing deliveries give `"3 successful, 0 failed"`,
two existing and one missing give `"2 successful, 1 failed"`. -/
theorem C8_force_resend_counts (now : Int) (ds : List core.EventDelivery) (ids : List String) :
    (∀ before id, (∃ r, core.Resend now (core.ForceResend now ds before).1 id = .ok r) ↔
      id ∈ ds.map (fun d => d.UID)) ∧
    (core.ForceResend now ds ids).2 =
      toString (ids.countP (fun id => decide (id ∈ ds.map (fun d => d.UID)))) ++ " successful, " ++
        toString (ids.countP (fun id => decide (id ∉ ds.map (fun d => d.UID)))) ++ " failed" ∧
    ids.countP (fun id => decide (id ∈ ds.map (fun d => d.UID))) +
      ids.countP (fun id => decide (id ∉ ds.map (fun d => d.UID))) = ids.length ∧
    (∀ id ∈ ids, id ∈ ds.map (fun d => d.UID) →
      core.firstIsScheduled (core.ForceResend now ds ids).1 id) ∧
    (∀ e1 e2 e3, e1 ∈ ds.map (fun d => d.UID) → e2 ∈ ds.map (fun d => d.UID) →
      e3 ∈ ds.map (fun d => d.UID) →
      (core.ForceResend now ds [e1, e2, e3]).2 = "3 successful, 0 failed") ∧
    (∀ e1 e2 e3, e1 ∈ ds.map (fun d => d.UID) → e2 ∈ ds.map (fun d => d.UID) →
      e3 ∉ ds.map (fun d => d.UID) →
      (core.ForceResend now ds [e1, e2, e3]).2 = "2 successful, 1 failed") := by
  have hmsg : ∀ l : List String, (core.ForceResend now ds l).2 =
      toString (l.countP (fun id => decide (id ∈ ds.map (fun d => d.UID)))) ++ " successful, " ++
        toString (l.countP (fun id => decide (id ∉ ds.map (fun d => d.UID)))) ++ " failed" := by
    intro l
    obtain ⟨h1, h2, _⟩ := core.forceResendLoop_spec now l ds 0 0
    simp only [core.ForceResend, h1, h2, Nat.zero_add]
  refine ⟨?_, hmsg ids, ?_, ?_, ?_, ?_⟩
  · intro before id
    have hu := (core.forceResendLoop_spec now before ds 0 0).2.2.1
    simp only [core.ForceResend, core.Resend]
    rw [← hu]
    cases hr : core.resendFirst now id (core.forceResendLoop now before (ds, 0, 0)).1 with
    | none =>
      have := (core.resendFirst_none_iff now id _).mp hr
      simp only [this, iff_false, not_exists]
      intro r h
      exact Except.noConfusion h
    | some r =>
      have : id ∈ (core.forceResendLoop now before (ds, 0, 0)).1.map (fun d => d.UID) := by
        by_contra hc
        rw [(core.resendFirst_none_iff now id _).mpr hc] at hr
        exact Option.noConfusion hr
      simp only [this, iff_true]
      exact ⟨r, rfl⟩
  · induction ids with
    | nil => rfl
    | cons a l ih =>
      rw [List.countP_cons, List.countP_cons, List.length_cons]
      by_cases h : a ∈ ds.map (fun d => d.UID)
      · simp only [h, decide_True, if_true, not_true_eq_false, decide_False,
          Bool.false_eq_true, if_false]
        omega
      · simp only [h, decide_False, Bool.false_eq_true, if_false, not_false_eq_true,
          decide_True, if_true]
        omega
  · intro id hid hm
    exact (core.forceResendLoop_spec now ids ds 0 0).2.2.2.2 id hid hm
  · intro e1 e2 e3 h1 h2 h3
    rw [hmsg]
    simp only [List.countP_cons, List.countP_nil, h1, h2, h3, decide_True, if_true,
      not_true_eq_false, decide_False, Bool.false_eq_true, if_false]
    rfl
  · intro e1 e2 e3 h1 h2 h3
    rw [hmsg]
    simp only [List.countP_cons, List.countP_nil, h1, h2, h3, decide_True, if_true,
      not_true_eq_false, decide_False, Bool.false_eq_true, if_false, not_false_eq_true]
    rfl

/-- C9: CountAffected hands the collection back untouched and returns exactly the
number of deliveries that BatchRetry with the same filter, run on that
collection, transitions: BatchRetry applies the Resend transition to the records
the filter accepts and leaves the others as they were, and the count equals the
number of accepted records that are `Scheduled` afterwards.  Three seeded failed
deliveries of one application and event, under the filter on that application,
event and the failure status, give the count 3. -/
theorem C9_count_matches_batch_retry (now : Int) (ds : List core.EventDelivery)
    (f : core.Filter) :
    (core.CountAffected ds f).1 = ds ∧
    (core.CountAffected ds f).2 = (core.BatchRetry now ds f).2 ∧
    (core.BatchRetry now ds f).1 =
      ds.map (fun d => if f.accepts d then core.resendTransition now d else d) ∧
    (core.CountAffected ds f).2 =
      (ds.zip (core.BatchRetry now ds f).1).countP
        (fun p => f.accepts p.1 && decide (p.2.Status = .Scheduled)) ∧
    (∀ app event u1 u2 u3 : String,
      (core.CountAffected
        [core.SeedEventDelivery u1 app event .Failure, core.SeedEventDelivery u2 app event .Failure,
         core.SeedEventDelivery u3 app event .Failure]
        { AppID := some app, EventID := some event, Status := some .Failure }).2 = 3 ∧
      (core.BatchRetry now
        [core.SeedEventDelivery u1 app event .Failure, core.SeedEventDelivery u2 app event .Failure,
         core.SeedEventDelivery u3 app event .Failure]
        { AppID := some app, EventID := some event, Status := some .Failure }).2 = 3) := by
  obtain ⟨h1, h2, h3⟩ := core.batchRetryLoop_spec now f ds
  refine ⟨rfl, ?_, ?_, ?_, ?_⟩
  · simp [core.CountAffected, core.BatchRetry, h1]
  · simpa [core.BatchRetry] using h2
  · simp only [core.CountAffected, core.BatchRetry]
    exact h3.symm
  · intro app event u1 u2 u3
    simp [core.CountAffected, core.BatchRetry, core.batchRetryLoop, core.SeedEventDelivery,
      core.Filter.accepts]

/-- C10: when the application named by a create-event request has zero endpoints,
event creation answers 400 and hands back the state as it was: no delivery is
created and the deliveries are unchanged. -/
theorem C10_no_endpoint_rejected (st : core.State) (groupID eventUID : String)
    (newUID : Nat → String) (req : core.CreateEventRequest) (app : core.Application)
    (happ : st.applications.find? (fun a => decide (a.UID = req.AppID)) = some app)
    (hzero : app.Endpoints = []) :
    (core.CreateEvent st groupID eventUID newUID req).2 = 400 ∧
    (core.CreateEvent st groupID eventUID newUID req).1.deliveries = st.deliveries ∧
    (core.CreateEvent st groupID eventUID newUID req).1 = st := by
  have hm : core.Matcher st
      { UID := eventUID, AppID := req.AppID, GroupID := groupID, EventType := req.EventType,
        Data := req.Data } = [] := by
    simp [core.Matcher, core.endpointsOf, happ, hzero]
  simp [core.CreateEvent, hm]

/-- Witness of C10: an application without endpoints in a group whose other
application has a subscribed endpoint. -/
theorem C10_no_endpoint_rejected_witness :
    (core.CreateEvent
      { applications := [{ UID := "a1", GroupID := "g" },
                         { UID := "a2", GroupID := "g", Endpoints := ["e1"] }],
        subscriptions := [{ UID := "s1", GroupID := "g", EndpointID := "e1" }] }
      "g" "ev1" (fun n => toString n) { AppID := "a1", EventType := "*" }).2 = 400 ∧
    (core.CreateEvent
      { applications := [{ UID := "a1", GroupID := "g" },
                         { UID := "a2", GroupID := "g", Endpoints := ["e1"] }],
        subscriptions := [{ UID := "s1", GroupID := "g", EndpointID := "e1" }] }
      "g" "ev1" (fun n => toString n) { AppID := "a1", EventType := "*" }).1.deliveries = [] :=
  ⟨(C10_no_endpoint_rejected _ "g" "ev1" _ _ { UID := "a1", GroupID := "g" }
      (by simp [List.find?]) rfl).1,
   (C10_no_endpoint_rejected _ "g" "ev1" _ _ { UID := "a1", GroupID := "g" }
      (by simp [List.find?]) rfl).2.1⟩

/-! ## Resend and the retry scheduler -/

namespace core

theorem resendFirst_find (now : Int) (id : String) (ds : List EventDelivery)
    (r : List EventDelivery × EventDelivery) (h : resendFirst now id ds = some r) :
    ∃ d, ds.find? (fun x => decide (x.UID = id)) = some d ∧ r.2 = resendTransition now d := by
  induction ds generalizing r with
  | nil => simp [resendFirst] at h
  | cons d ds ih =>
    simp only [resendFirst] at h
    by_cases hd : d.UID = id
    · simp only [hd, if_true, Option.some.injEq] at h
      subst h
      exact ⟨d, by simp [List.find?, hd], rfl⟩
    · simp only [hd, if_false] at h
      cases hr : resendFirst now id ds with
      | none => simp [hr] at h
      | some r2 =>
        simp only [hr, Option.map_some', Option.some.injEq] at h
        subst h
        obtain ⟨x, hx, hx2⟩ := ih r2 hr
        exact ⟨x, by simp [List.find?, hd, hx], hx2⟩

theorem resendTransition_of_terminal (now : Int) (d : EventDelivery)
    (h : d.Status.isTerminal = true) :
    resendTransition now d = { d with Status := .Scheduled, NextRetryTime := some now } := by
  unfold resendTransition
  split
  · rename_i hs
    rw [hs] at h
    exact absurd h (by decide)
  · rfl

end core

/-- C11: resending an existing delivery that is in a terminal state (success,
failure or discarded) succeeds and returns that delivery, same id and same other
fields, with status `Scheduled` and its next-retry time reset to now; the stored
record is `Scheduled` afterwards and no record is added or removed. -/
theorem C11_resend_terminal_delivery (now : Int) (ds : List core.EventDelivery) (id : String)
    (d : core.EventDelivery)
    (hfind : ds.find? (fun x => decide (x.UID = id)) = some d)
    (hterm : d.Status.isTerminal = true) :
    ∃ ds2 d2, core.Resend now ds id = .ok (ds2, d2) ∧
      d2.UID = id ∧ d2.UID = d.UID ∧ d2.Status = .Scheduled ∧
      d2 = { d with Status := .Scheduled, NextRetryTime := some now } ∧
      core.firstIsScheduled ds2 id ∧
      ds2.map (fun x => x.UID) = ds.map (fun x => x.UID) := by
  have hid : d.UID = id := by
    have := List.find?_some hfind
    simpa using this
  have hmem : id ∈ ds.map (fun x => x.UID) :=
    List.mem_map.mpr ⟨d, List.mem_of_find?_eq_some hfind, hid⟩
  cases hr : core.resendFirst now id ds with
  | none => exact absurd hmem ((core.resendFirst_none_iff now id ds).mp hr)
  | some r =>
    obtain ⟨x, hx, hx2⟩ := core.resendFirst_find now id ds r hr
    rw [hfind, Option.some.injEq] at hx
    subst hx
    have hd2 := core.resendTransition_of_terminal now d hterm
    refine ⟨r.1, r.2, ?_, ?_, ?_, ?_, ?_, ?_, ?_⟩
    · simp [core.Resend, hr]
    · rw [hx2, core.resendTransition_UID, hid]
    · rw [hx2, core.resendTransition_UID]
    · rw [hx2, core.resendTransition_status]
    · rw [hx2, hd2]
    · exact core.resendFirst_scheduled now id ds r hr
    · exact core.resendFirst_uids now id ds r hr

/-- Witness of C11: a failed delivery, as seeded by the resend integration test,
next to a successful one. -/
theorem C11_resend_terminal_delivery_witness :
    ∃ ds2 d2,
      core.Resend 9 [core.SeedEventDelivery "d0" "a" "e" .Success,
                     core.SeedEventDelivery "d1" "a" "e" .Failure] "d1" = .ok (ds2, d2) ∧
      d2.UID = "d1" ∧ d2.UID = (core.SeedEventDelivery "d1" "a" "e" .Failure).UID ∧
      d2.Status = .Scheduled ∧
      d2 = { core.SeedEventDelivery "d1" "a" "e" .Failure with
              Status := .Scheduled, NextRetryTime := some 9 } ∧
      core.firstIsScheduled ds2 "d1" ∧
      ds2.map (fun x => x.UID) =
        [core.SeedEventDelivery "d0" "a" "e" .Success,
         core.SeedEventDelivery "d1" "a" "e" .Failure].map (fun x => x.UID) :=
  C11_resend_terminal_delivery 9 _ "d1" (core.SeedEventDelivery "d1" "a" "e" .Failure)
    (by simp [List.find?, core.SeedEventDelivery]) rfl

/-- C12: under the exponential policy with base duration `b` and maximum retry
count `m`, `ScheduleNext` raises the attempt count by exactly one, to `k`, and
records the attempt time; the delivery is `Discarded` when `k ≥ m` and otherwise
`Scheduled` with next-retry time `now + b * 2^(k-1)`.  With `b` one second and
`m = 4`, three failures in a row are rescheduled one, two and four seconds after
their attempt and the fourth failure discards. -/
theorem C12_exponential_backoff (now : Int) (d : core.EventDelivery) (b : Int) (m : Nat) :
    (core.ScheduleNext now d { Policy := .exponential, Duration := b, RetryCount := m }).AttemptCount
      = d.AttemptCount + 1 ∧
    (core.ScheduleNext now d
      { Policy := .exponential, Duration := b, RetryCount := m }).LastAttemptTime = some now ∧
    (core.ScheduleNext now d { Policy := .exponential, Duration := b, RetryCount := m }).Status
      = (if d.AttemptCount + 1 ≥ m then .Discarded else .Scheduled) ∧
    (core.ScheduleNext now d { Policy := .exponential, Duration := b, RetryCount := m }).NextRetryTime
      = (if d.AttemptCount + 1 ≥ m then none
         else some (now + b * 2 ^ (d.AttemptCount + 1 - 1))) ∧
    (∀ n1 n2 n3 n4 : Int,
      (core.ScheduleNext n1 { d with AttemptCount := 0 }
        { Policy := .exponential, Duration := 1000, RetryCount := 4 }).NextRetryTime
        = some (n1 + 1000) ∧
      (core.ScheduleNext n2 (core.ScheduleNext n1 { d with AttemptCount := 0 }
        { Policy := .exponential, Duration := 1000, RetryCount := 4 })
        { Policy := .exponential, Duration := 1000, RetryCount := 4 }).NextRetryTime
        = some (n2 + 2000) ∧
      (core.ScheduleNext n3 (core.ScheduleNext n2 (core.ScheduleNext n1 { d with AttemptCount := 0 }
        { Policy := .exponential, Duration := 1000, RetryCount := 4 })
        { Policy := .exponential, Duration := 1000, RetryCount := 4 })
        { Policy := .exponential, Duration := 1000, RetryCount := 4 }).NextRetryTime
        = some (n3 + 4000) ∧
      (core.ScheduleNext n3 (core.ScheduleNext n2 (core.ScheduleNext n1 { d with AttemptCount := 0 }
        { Policy := .exponential, Duration := 1000, RetryCount := 4 })
        { Policy := .exponential, Duration := 1000, RetryCount := 4 })
        { Policy := .exponential, Duration := 1000, RetryCount := 4 }).Status = .Scheduled ∧
      (core.ScheduleNext n4 (core.ScheduleNext n3 (core.ScheduleNext n2
        (core.ScheduleNext n1 { d with AttemptCount := 0 }
        { Policy := .exponential, Duration := 1000, RetryCount := 4 })
        { Policy := .exponential, Duration := 1000, RetryCount := 4 })
        { Policy := .exponential, Duration := 1000, RetryCount := 4 })
        { Policy := .exponential, Duration := 1000, RetryCount := 4 }).Status = .Discarded) := by
  refine ⟨?_, ?_, ?_, ?_, ?_⟩
  · simp only [core.ScheduleNext]
    split <;> rfl
  · simp only [core.ScheduleNext]
    split <;> rfl
  · simp only [core.ScheduleNext]
    split <;> rfl
  · simp only [core.ScheduleNext, core.retryDelay]
    split <;> rfl
  · intro n1 n2 n3 n4
    simp [core.ScheduleNext, core.retryDelay]

/-! ## `CreateSubscription` and `DeleteSubscription` -/

theorem CreateSubscription_calls (s : server.Server) (r : server.Request) :
    server.serviceCalls (server.CreateSubscription s r) = [] ∨
    server.serviceCalls (server.CreateSubscription s r) =
      [.CreateSubscription r.group { Type_ := r.group.Type_ }] := by
  simp only [server.CreateSubscription]
  split
  · left; rfl
  · split <;> (right; rfl)

/-- C13: an input on which the claim breaks.  The request body names the
subscription `sub-1` of application `app-1`; decoding succeeds, yet the value
handed to the service's `CreateSubscription` is the zero subscription model with
only its type set from the group: its name is empty, and a request with another
body hands over the very same value. -/
theorem C13_create_subscription_ignores_body :
    server.serviceCalls (server.CreateSubscription server.okServer
      { group := { UID := "g1", Type_ := "outgoing" },
        body := "\x7b\"name\":\"sub-1\",\"app_id\":\"app-1\"\x7d" }) =
      [.CreateSubscription { UID := "g1", Type_ := "outgoing" }
        { Name := "", Type_ := "outgoing", AppID := "", SourceID := "", EndpointID := "" }] ∧
    server.serviceCalls (server.CreateSubscription server.okServer
      { group := { UID := "g1", Type_ := "outgoing" },
        body := "\x7b\"name\":\"sub-2\",\"app_id\":\"app-2\"\x7d" }) =
      server.serviceCalls (server.CreateSubscription server.okServer
        { group := { UID := "g1", Type_ := "outgoing" },
          body := "\x7b\"name\":\"sub-1\",\"app_id\":\"app-1\"\x7d" }) := by
  refine ⟨?_, ?_⟩ <;> rfl

/-- C14: in `DeleteSubscription`, when the lookup by id fails the service's
`DeleteSubscription` is not called and the one response rendered is the
service-error response for the lookup error; a server response (the success
response, status 200) is rendered exactly when the lookup and the delete both
succeed, and it is then the only response; every path renders exactly one
response. -/
theorem C14_delete_subscription_paths (s : server.Server) (r : server.Request) :
    (∀ err, s.subService.FindSubscriptionByID r.group (server.URLParam r "subscriptionID") true
        = .error err →
      (∀ groupID sub, server.ServiceCall.DeleteSubscription groupID sub ∉
        server.serviceCalls (server.DeleteSubscription s r)) ∧
      server.rendered (server.DeleteSubscription s r) = [.NewServiceErrResponse err]) ∧
    ((∃ message data statusCode, server.Response.NewServerResponse message data statusCode ∈
        server.rendered (server.DeleteSubscription s r)) ↔
      ∃ sub, s.subService.FindSubscriptionByID r.group (server.URLParam r "subscriptionID") true
          = .ok sub ∧ s.subService.DeleteSubscription r.group.UID sub = none) ∧
    ((∃ sub, s.subService.FindSubscriptionByID r.group (server.URLParam r "subscriptionID") true
          = .ok sub ∧ s.subService.DeleteSubscription r.group.UID sub = none) →
      server.rendered (server.DeleteSubscription s r) =
        [.NewServerResponse "Subscription deleted successfully" none 200]) ∧
    (server.rendered (server.DeleteSubscription s r)).length = 1 := by
  simp only [server.DeleteSubscription]
  cases hf : s.subService.FindSubscriptionByID r.group (server.URLParam r "subscriptionID") true with
  | error e =>
    simp [server.rendered, server.serviceCalls]
  | ok sub =>
    cases hd : s.subService.DeleteSubscription r.group.UID sub with
    | none => simp [server.rendered, server.serviceCalls, hd, server.StatusOK]
    | some e => simp [server.rendered, server.serviceCalls, hd]

/-- Witness of C14's shape on a server whose lookup and delete succeed: the one
response is the success response with status 200. -/
theorem C14_delete_subscription_paths_witness :
    server.rendered (server.DeleteSubscription server.okServer
      { group := { UID := "g1", Type_ := "outgoing" }, urlParams := [("subscriptionID", "s1")] }) =
      [.NewServerResponse "Subscription deleted successfully" none 200] :=
  (C14_delete_subscription_paths server.okServer
    { group := { UID := "g1", Type_ := "outgoing" },
      urlParams := [("subscriptionID", "s1")] }).2.2.1 ⟨_, rfl, rfl⟩

/-! ## `LoadOrganisationsInvitesPaged` -/

/-- C15: the filter built by `LoadOrganisationsInvitesPaged` is the active
document status, then `organisation_id = orgID` exactly when `orgID` is not
empty, then `status = inviteStatus` exactly when `inviteStatus` is not empty, and
nothing else; the query carries this filter, and when it fails the operation
returns the error with the empty non-nil list and the zero pagination data. -/
theorem C15_load_invites_filter {ε : Type} (pager : Pager ε) (IsStringEmpty : String → Bool)
    (orgID inviteStatus : String) (pageable : Pageable) :
    orgInviteRepo.loadInvitesFilter IsStringEmpty orgID inviteStatus =
      [("document_status", .str ActiveDocumentStatus)] ++
        (if IsStringEmpty orgID then [] else [("organisation_id", .str orgID)]) ++
        (if IsStringEmpty inviteStatus then [] else [("status", .str inviteStatus)]) ∧
    MemStore.lookup "document_status" (orgInviteRepo.loadInvitesFilter IsStringEmpty orgID inviteStatus)
      = some (.str ActiveDocumentStatus) ∧
    MemStore.lookup "organisation_id" (orgInviteRepo.loadInvitesFilter IsStringEmpty orgID inviteStatus)
      = (if IsStringEmpty orgID then none else some (.str orgID)) ∧
    MemStore.lookup "status" (orgInviteRepo.loadInvitesFilter IsStringEmpty orgID inviteStatus)
      = (if IsStringEmpty inviteStatus then none else some (.str inviteStatus)) ∧
    (∀ k, k ≠ "document_status" → k ≠ "organisation_id" → k ≠ "status" →
      MemStore.lookup k (orgInviteRepo.loadInvitesFilter IsStringEmpty orgID inviteStatus) = none) ∧
    (∀ err,
      pager { Limit := pageable.PerPage, Page := pageable.Page, SortField := "created_at",
              SortValue := pageable.Sort_,
              Filter := orgInviteRepo.loadInvitesFilter IsStringEmpty orgID inviteStatus }
        = .error err →
      orgInviteRepo.LoadOrganisationsInvitesPaged pager IsStringEmpty orgID inviteStatus pageable
        = (Slice.ofList [], {}, some err)) := by
  have hf : orgInviteRepo.loadInvitesFilter IsStringEmpty orgID inviteStatus =
      [("document_status", .str ActiveDocumentStatus)] ++
        (if IsStringEmpty orgID then [] else [("organisation_id", .str orgID)]) ++
        (if IsStringEmpty inviteStatus then [] else [("status", .str inviteStatus)]) := by
    simp only [orgInviteRepo.loadInvitesFilter]
    cases IsStringEmpty orgID <;> cases IsStringEmpty inviteStatus <;>
      simp [MemStore.setField]
  refine ⟨hf, ?_, ?_, ?_, ?_, ?_⟩
  · rw [hf]
    simp [MemStore.lookup]
  · rw [hf]
    cases IsStringEmpty orgID <;> cases IsStringEmpty inviteStatus <;> simp [MemStore.lookup]
  · rw [hf]
    cases IsStringEmpty orgID <;> cases IsStringEmpty inviteStatus <;> simp [MemStore.lookup]
  · intro k h1 h2 h3
    rw [hf]
    cases IsStringEmpty orgID <;> cases IsStringEmpty inviteStatus <;>
      simp [MemStore.lookup, Ne.symm h1, Ne.symm h2, Ne.symm h3]
  · intro err herr
    simp [orgInviteRepo.LoadOrganisationsInvitesPaged, herr]

/-- Witness of C15's failure path: a pager that times out, asked for the pending
invites of organisation `org-1`. -/
theorem C15_load_invites_filter_witness :
    orgInviteRepo.LoadOrganisationsInvitesPaged
        (fun _ => (.error (GoError.plain "timeout") : Except GoError (Slice BsonM × PaginationData)))
        (fun str => decide (str = "")) "org-1" "pending" { Page := 1, PerPage := 10, Sort_ := -1 }
      = (Slice.ofList [], {}, some (GoError.plain "timeout")) :=
  (C15_load_invites_filter
    (fun _ => (.error (GoError.plain "timeout") : Except GoError (Slice BsonM × PaginationData)))
    (fun str => decide (str = "")) "org-1" "pending"
    { Page := 1, PerPage := 10, Sort_ := -1 }).2.2.2.2.2 _ rfl

end Convoy
